import Mathlib

/-!
# Verification of the 2FA subsystem of wildduck-webmail

Shallow embedding of `src/routes/account.js` (the second-factor routes and the
remember-device token mint) together with proofs of the specification claims.

Conventions of the embedding:
* JavaScript numbers that are used as integers (timestamps, bytes, 32-bit hash
  words) are `Nat`, with `% 2^32` (`w32`) applied wherever the source's crypto
  primitive works modulo 2^32.
* The external `crypto` library calls (`createHmac('sha256', …)`,
  `randomBytes`, `Buffer.toString('hex')`, `Number.toString(16)`) are embedded
  as executable Lean functions implementing the same algorithms (FIPS 180-4
  SHA-256, RFC 2104 HMAC, lowercase hex).
* Nondeterministic inputs of the source (`Date.now()`, `crypto.randomBytes`)
  become explicit parameters (`now`, `nonce`).
* Each Express route handler becomes a pure function from its inputs (config,
  request body, session, and the outcome of the single external `apiClient`
  call it makes) to a record of its observable effects: which api request was
  issued (if any), the updated session, and the HTTP response. The passport
  middleware chain (csrf parsing, login check) runs before every handler and is
  outside the handlers' own code, so it is not part of the handler functions.
-/

namespace WildduckWebmail

/-! ## Hexadecimal encoding

`Number.prototype.toString(16)` and `Buffer.prototype.toString('hex')` both
produce lowercase hexadecimal. -/

/-- Lowercase hexadecimal digit for `n < 16`: `'0'..'9'` then `'a'..'f'`. -/
def hexDigit (n : Nat) : Char :=
  if n < 10 then Char.ofNat (48 + n) else Char.ofNat (87 + n)

/-- Lowercase hexadecimal character: `0-9` or `a-f`. -/
def isHexChar (c : Char) : Bool :=
  c.isDigit || ('a' ≤ c && c ≤ 'f')

/-- Digits (most significant first) of `n` in base 16; `[]` for `0`.
Embeds the digit production of `Number.prototype.toString(16)` for
nonnegative integers. -/
def natToHexAux (n : Nat) : List Char :=
  if h : n = 0 then []
  else natToHexAux (n / 16) ++ [hexDigit (n % 16)]
termination_by n
decreasing_by exact Nat.div_lt_self (Nat.pos_of_ne_zero h) (by decide)

/-- `Number.prototype.toString(16)` for a nonnegative integer: `"0"` for zero,
otherwise the base-16 digits without leading zeros. -/
def natToHex (n : Nat) : String :=
  if n = 0 then "0" else String.mk (natToHexAux n)

/-- Two lowercase hex characters of one byte, as in `Buffer.toString('hex')`. -/
def byteHex (b : Nat) : List Char :=
  [hexDigit ((b / 16) % 16), hexDigit (b % 16)]

/-- Characters of `Buffer.prototype.toString('hex')`: two hex digits per byte. -/
def bytesToHexList : List Nat → List Char
  | [] => []
  | b :: t => byteHex b ++ bytesToHexList t

/-- `Buffer.prototype.toString('hex')` as a `String`. -/
def bytesToHexStr (l : List Nat) : String :=
  String.mk (bytesToHexList l)

/-! ## SHA-256 (FIPS 180-4) and HMAC (RFC 2104)

Embeds Node's `crypto.createHmac('sha256', key).update(msg).digest('hex')`.
Bytes are `Nat` values below 256; 32-bit words are `Nat` reduced by `w32`. -/

/-- Truncation to a 32-bit word. -/
def w32 (n : Nat) : Nat := n % 4294967296

/-- Right rotation of a 32-bit word, as modular arithmetic: the low `n` bits
wrap around to the top. -/
def rotr32 (x n : Nat) : Nat := (x >>> n) + (x % 2 ^ n) * 2 ^ (32 - n)

/-- Xor of three right-rotations of one word — the shape shared by the four
SHA-256 sigma functions. -/
def rot3xor (x i j k : Nat) : Nat := rotr32 x i ^^^ rotr32 x j ^^^ rotr32 x k

/-- SHA-256 Σ0. -/
def bsig0 (x : Nat) : Nat := rot3xor x 2 13 22

/-- SHA-256 Σ1. -/
def bsig1 (x : Nat) : Nat := rot3xor x 6 11 25

/-- SHA-256 σ0. -/
def ssig0 (x : Nat) : Nat := rotr32 x 7 ^^^ rotr32 x 18 ^^^ (x >>> 3)

/-- SHA-256 σ1. -/
def ssig1 (x : Nat) : Nat := rotr32 x 17 ^^^ rotr32 x 19 ^^^ (x >>> 10)

/-- SHA-256 round constants (FIPS 180-4 §4.2.2, written in decimal). -/
def sha256K : List Nat :=
  [1116352408, 1899447441, 3049323471, 3921009573, 961987163, 1508970993,
   2453635748, 2870763221, 3624381080, 310598401, 607225278, 1426881987,
   1925078388, 2162078206, 2614888103, 3248222580, 3835390401, 4022224774,
   264347078, 604807628, 770255983, 1249150122, 1555081692, 1996064986,
   2554220882, 2821834349, 2952996808, 3210313671, 3336571891, 3584528711,
   113926993, 338241895, 666307205, 773529912, 1294757372, 1396182291,
   1695183700, 1986661051, 2177026350, 2456956037, 2730485921, 2820302411,
   3259730800, 3345764771, 3516065817, 3600352804, 4094571909, 275423344,
   430227734, 506948616, 659060556, 883997877, 958139571, 1322822218,
   1537002063, 1747873779, 1955562222, 2024104815, 2227730452, 2361852424,
   2428436474, 2756734187, 3204031479, 3329325298]

/-- The eight 32-bit words of the SHA-256 working state. -/
structure Sha256H where
  a : Nat
  b : Nat
  c : Nat
  d : Nat
  e : Nat
  f : Nat
  g : Nat
  h : Nat

/-- SHA-256 initial hash value (FIPS 180-4 §5.3.3, written in decimal). -/
def sha256Init : Sha256H :=
  ⟨1779033703, 3144134277, 1013904242, 2773480762,
   1359893119, 2600822924, 528734635, 1541459225⟩

/-- Big-endian 32-bit word `i` of a byte list (missing bytes read as 0). -/
def beWord (bs : List Nat) (i : Nat) : Nat :=
  bs.getD (4 * i) 0 * 16777216 + bs.getD (4 * i + 1) 0 * 65536 +
    bs.getD (4 * i + 2) 0 * 256 + bs.getD (4 * i + 3) 0

/-- Extends the 16-word message block to the 64-word SHA-256 schedule. -/
def extendW (w : List Nat) : List Nat :=
  if h : w.length < 64 then
    extendW (w ++ [w32 (ssig1 (w.getD (w.length - 2) 0) + w.getD (w.length - 7) 0 +
      ssig0 (w.getD (w.length - 15) 0) + w.getD (w.length - 16) 0)])
  else w
termination_by 64 - w.length
decreasing_by simp only [List.length_append, List.length_cons, List.length_nil]; omega

/-- The 64-word message schedule of one 64-byte block. -/
def sha256Schedule (block : List Nat) : List Nat :=
  extendW ((List.range 16).map (beWord block))

/-- SHA-256 Ch; the state words are kept below `2^32` so xor against
`0xffffffff` is complement. -/
def chFn (e f g : Nat) : Nat := (e &&& f) ^^^ ((4294967295 ^^^ w32 e) &&& g)

/-- SHA-256 Maj. -/
def majFn (a b c : Nat) : Nat := (a &&& b) ^^^ (a &&& c) ^^^ (b &&& c)

/-- One SHA-256 compression round. -/
def sha256Round (w : List Nat) (st : Sha256H) (t : Nat) : Sha256H :=
  let t1 := w32 (st.h + bsig1 st.e + chFn st.e st.f st.g + sha256K.getD t 0 + w.getD t 0)
  let t2 := w32 (bsig0 st.a + majFn st.a st.b st.c)
  ⟨w32 (t1 + t2), st.a, st.b, st.c, w32 (st.d + t1), st.e, st.f, st.g⟩

/-- SHA-256 compression of one 64-byte block into the chaining state. -/
def sha256Compress (st : Sha256H) (block : List Nat) : Sha256H :=
  let w := sha256Schedule block
  let r := (List.range 64).foldl (sha256Round w) st
  ⟨w32 (st.a + r.a), w32 (st.b + r.b), w32 (st.c + r.c), w32 (st.d + r.d),
   w32 (st.e + r.e), w32 (st.f + r.f), w32 (st.g + r.g), w32 (st.h + r.h)⟩

/-- Big-endian bytes of a 64-bit length field. -/
def be64Bytes (n : Nat) : List Nat :=
  [(n >>> 56) % 256, (n >>> 48) % 256, (n >>> 40) % 256, (n >>> 32) % 256,
   (n >>> 24) % 256, (n >>> 16) % 256, (n >>> 8) % 256, n % 256]

/-- Big-endian bytes of a 32-bit word. -/
def be32Bytes (n : Nat) : List Nat :=
  [(n >>> 24) % 256, (n >>> 16) % 256, (n >>> 8) % 256, n % 256]

/-- SHA-256 padding: append `0x80`, zeros to 56 mod 64, and the bit length. -/
def sha256Pad (msg : List Nat) : List Nat :=
  msg ++ 128 :: List.replicate ((64 + 55 - msg.length % 64) % 64) 0 ++ be64Bytes (msg.length * 8)

/-- Splits a padded message into 64-byte blocks. -/
def sha256Blocks (l : List Nat) : List (List Nat) :=
  if h : l = [] then [] else l.take 64 :: sha256Blocks (l.drop 64)
termination_by l.length
decreasing_by
  simp only [List.length_drop]
  have := List.length_pos.mpr h
  omega

/-- SHA-256 digest (32 bytes) of a byte list. -/
def sha256 (msg : List Nat) : List Nat :=
  let r := (sha256Blocks (sha256Pad msg)).foldl sha256Compress sha256Init
  be32Bytes r.a ++ be32Bytes r.b ++ be32Bytes r.c ++ be32Bytes r.d ++
    be32Bytes r.e ++ be32Bytes r.f ++ be32Bytes r.g ++ be32Bytes r.h

/-- HMAC-SHA256 (RFC 2104) over byte lists, block size 64. -/
def hmacSha256 (key msg : List Nat) : List Nat :=
  let k0 := if key.length > 64 then sha256 key else key
  let kp := k0 ++ List.replicate (64 - k0.length) 0
  sha256 (kp.map (fun b => b ^^^ 92) ++ sha256 (kp.map (fun b => b ^^^ 54) ++ msg))

/-- UTF-8 bytes of a string, as Node encodes strings fed to `Hmac.update`. -/
def strBytes (s : String) : List Nat :=
  s.toUTF8.toList.map (fun b => b.toNat)

/-- Embeds `crypto.createHmac('sha256', key).update(msg).digest('hex')`. -/
def hmacSha256Hex (key msg : String) : String :=
  bytesToHexStr (hmacSha256 (strBytes key) (strBytes msg))

/-! ## The remember-device token mint -/

/-- Embeds `generate2faRemeberToken` (src/routes/account.js:849-859).

The source reads `Date.now()` (here the parameter `now`, milliseconds),
`crypto.randomBytes(6)` (here the parameter `nonce`, a list of 6 bytes) and the
process-wide configuration secret `config.totp.secret` (here the parameter
`secret`, per the spec's instruction to pass configuration explicitly);
`user` is `req.user.id`, the account identifier. -/
def generate2faRemeberToken (now : Nat) (nonce : List Nat) (secret user : String) : String :=
  let parts : List String := [natToHex now, bytesToHexStr nonce]
  let valueStr := String.intercalate "::" parts
  let hash := hmacSha256Hex (secret ++ ":" ++ user) valueStr
  valueStr ++ "::" ++ hash

/-! ## Splitting a token on the `"::"` separator

Modelled from the spec: the `Verify` half of the Token Codec (spec §4.1) is
absent from the source flow (the spec itself marks it a gap); its first step
"splits the token into its three parts" is embedded here so the structure of
minted tokens can be stated. -/

/-- Splits a character list on every occurrence of the two-character
separator `"::"`. -/
def splitSeps : List Char → List (List Char)
  | [] => [[]]
  | [c] => [[c]]
  | c1 :: c2 :: rest =>
    if c1 = ':' ∧ c2 = ':' then [] :: splitSeps rest
    else (c1 :: (splitSeps (c2 :: rest)).headI) :: (splitSeps (c2 :: rest)).tail

/-- Splits a string on the separator `"::"`. -/
def tokenSplit (s : String) : List String :=
  (splitSeps s.data).map String.mk

/-! ## Route handler models

Each `router.post(...)` handler of src/routes/account.js becomes a pure
function. The single external `apiClient['2fa'].*` call a handler makes is
represented by a parameter holding the callback's outcome, and the handler's
output records which api request was issued (`apiCalled = none` when the
external client was never invoked), the session after the handler ran, and the
response sent. Flash messages are presentation and are not modelled. -/

/-- The part of `req.session` these routes read or write: the `require2fa`
gate flag and the `username` used in the remember-token response payload. -/
structure Session where
  require2fa : Bool
  username : String
deriving DecidableEq, Repr

/-- Joi validation for the `token` field of /verify-totp and /check-totp:
`Joi.string().length(6).regex(numbers).required()`. A string passes exactly
when it is six ASCII digits (the one-or-more of the regex is implied by the
length). -/
def validTotpCode (t : String) : Bool :=
  t.length == 6 && t.data.all Char.isDigit

/-- Joi validation and conversion of the `remember2fa` boolean field:
`Joi.boolean().truthy(['Y','true','yes','on',1]).falsy(['N','false','no','off',0,'']).default(false)`.
The body arrives form-encoded, so values are strings; the numeric members of
the truthy/falsy lists are their string forms. `none` (field absent) takes
the default; an unconvertible value is a validation error. -/
def parseRemember (v : Option String) : Option Bool :=
  match v with
  | none => some false
  | some s =>
    if s ∈ ["Y", "true", "yes", "on", "1"] then some true
    else if s ∈ ["N", "false", "no", "off", "0", ""] then some false
    else none

/-- Placeholder for the Joi `result.error.message` text, whose wording the
source never inspects. -/
def joiErrorMessage : String := "ValidationError"

/-! ### POST /verify-totp (src/routes/account.js:612-642) -/

/-- Request body of /verify-totp after `delete req.body._csrf`: the `token`
field if present, and whether any other key is present (`allowUnknown:false`
makes unknown keys a validation error). -/
structure VerifyTotpBody where
  token : Option String
  hasUnknown : Bool
deriving DecidableEq, Repr

/-- Joi validation of /verify-totp: returns the validated token or `none`. -/
def validateVerifyTotp (b : VerifyTotpBody) : Option String :=
  if b.hasUnknown then none
  else match b.token with
    | some t => if validTotpCode t then some t else none
    | none => none

/-- Outcome of the `apiClient['2fa'].verifyTotp` callback: an error with
message and optional code, or success. -/
inductive VerifyTotpApi where
  | err (message : String) (code : Option String)
  | ok
deriving DecidableEq, Repr

/-- Response of /verify-totp. -/
inductive VerifyTotpResponse where
  | errorJson (message : String) (code : Option String)
  | successJson (targetUrl : String)
deriving DecidableEq, Repr

/-- Observable effects of /verify-totp: the api request `(userId, token, ip)`
if one was issued, the session after the handler, and the response. -/
structure VerifyTotpOut where
  apiCalled : Option (String × String × String)
  session : Session
  response : VerifyTotpResponse
deriving DecidableEq, Repr

/-- Embeds the /verify-totp handler (src/routes/account.js:612-642). The
session is never written by this route. -/
def verifyTotpHandler (userId ip : String) (sess : Session) (b : VerifyTotpBody)
    (api : VerifyTotpApi) : VerifyTotpOut :=
  match validateVerifyTotp b with
  | none => ⟨none, sess, .errorJson joiErrorMessage none⟩
  | some t =>
    match api with
    | .err m c => ⟨some (userId, t, ip), sess, .errorJson m c⟩
    | .ok => ⟨some (userId, t, ip), sess, .successJson "/account/security"⟩

/-! ### POST /check-totp (src/routes/account.js:655-703) -/

/-- Request body of /check-totp after `delete req.body._csrf`. -/
structure CheckTotpBody where
  token : Option String
  remember2fa : Option String
  hasUnknown : Bool
deriving DecidableEq, Repr

/-- Joi validation of /check-totp: the validated token and the converted
`remember2fa` boolean, or `none` on any validation error. -/
def validateCheckTotp (b : CheckTotpBody) : Option (String × Bool) :=
  if b.hasUnknown then none
  else match b.token, parseRemember b.remember2fa with
    | some t, some r => if validTotpCode t then some (t, r) else none
    | _, _ => none

/-- Outcome of the `apiClient['2fa'].checkTotp` callback `(err, result)`:
an error, or the boolean verification result. -/
inductive CheckTotpApi where
  | err (message : String) (code : Option String)
  | ok (result : Bool)
deriving DecidableEq, Repr

/-- Response of /check-totp; the success payload optionally carries the
`remember2fa` object `(username, token value)`. -/
inductive CheckTotpResponse where
  | errorJson (message : String) (code : Option String)
  | successJson (targetUrl : String) (remember : Option (String × String))
deriving DecidableEq, Repr

/-- Observable effects of /check-totp. `minted` is the remember-device token
produced by `generate2faRemeberToken`, when that function was called. -/
structure CheckTotpOut where
  apiCalled : Option (String × String × String)
  minted : Option String
  session : Session
  response : CheckTotpResponse
deriving DecidableEq, Repr

/-- Embeds the /check-totp handler (src/routes/account.js:655-703).
`secret` is `config.totp.secret`; `now` and `nonce` feed the mint's
`Date.now()` and `crypto.randomBytes(6)`. -/
def checkTotpHandler (secret userId ip : String) (sess : Session) (b : CheckTotpBody)
    (api : CheckTotpApi) (now : Nat) (nonce : List Nat) : CheckTotpOut :=
  match validateCheckTotp b with
  | none => ⟨none, none, sess, .errorJson joiErrorMessage none⟩
  | some (t, remember) =>
    match api with
    | .err m c => ⟨some (userId, t, ip), none, sess, .errorJson m c⟩
    | .ok false => ⟨some (userId, t, ip), none, sess, .errorJson "Could not verify token" none⟩
    | .ok true =>
      let minted := if remember then some (generate2faRemeberToken now nonce secret userId)
        else none
      ⟨some (userId, t, ip), minted, { sess with require2fa := false },
        .successJson "/account/" (minted.map (fun v => (sess.username, v)))⟩

/-! ### POST /disable-2fa (src/routes/account.js:644-653) -/

/-- Response of a redirect-style route: `next(err)` (with the error's optional
`status`) or a redirect. -/
inductive RedirectResponse where
  | nextError (message : String) (status : Option Nat)
  | redirect (url : String)
deriving DecidableEq, Repr

/-- Observable effects of /disable-2fa and /disable-u2f. -/
structure DisableOut where
  apiCalled : Option (String × String)
  session : Session
  response : RedirectResponse
deriving DecidableEq, Repr

/-- Embeds the /disable-2fa handler (src/routes/account.js:644-653):
`apiClient['2fa'].disable` removes all 2FA from the account; on success the
handler sets the current session's `require2fa` to `false`. `api` is the
callback error message, `none` on success. -/
def disable2faHandler (userId ip : String) (sess : Session) (api : Option String) : DisableOut :=
  match api with
  | some m => ⟨some (userId, ip), sess, .nextError m none⟩
  | none => ⟨some (userId, ip), { sess with require2fa := false }, .redirect "/account/security"⟩

/-! ### POST /disable-u2f (src/routes/account.js:809-826) -/

/-- Outcome of the `apiClient['2fa'].disableU2f` callback `(err, data)`. -/
inductive DisableU2fApi where
  | err (message : String)
  | ok (success : Bool)
deriving DecidableEq, Repr

/-- Embeds the /disable-u2f handler (src/routes/account.js:809-826). Gated on
`config.u2f.enabled` before anything else; the session is never written by
this route — in particular `require2fa` is not cleared when the account's
last active factor is removed here. -/
def disableU2fHandler (u2fEnabled : Bool) (userId ip : String) (sess : Session)
    (api : DisableU2fApi) : DisableOut :=
  if u2fEnabled then
    match api with
    | .err m => ⟨some (userId, ip), sess, .nextError m none⟩
    | .ok false => ⟨some (userId, ip), sess, .nextError "Did not receive U2F data" none⟩
    | .ok true => ⟨some (userId, ip), sess, .redirect "/account/security/"⟩
  else ⟨none, sess, .nextError "U2F support is disabled" (some 404)⟩

/-! ### POST /start-u2f and POST /setup-u2f (src/routes/account.js:705-717, 794-807) -/

/-- Outcome of an api call whose data is passed through to `res.json`
untouched; the payload is kept opaque. -/
inductive PassthroughApi where
  | err (message : String)
  | ok (payload : String)
deriving DecidableEq, Repr

/-- Response of a json-style route that passes api data through. -/
inductive PassthroughResponse where
  | errorJson (message : String)
  | dataJson (payload : String)
deriving DecidableEq, Repr

/-- Observable effects of /start-u2f and /setup-u2f: the api request
`(userId, ip)` if one was issued, and the response. Neither route touches
the session. -/
structure PassthroughOut where
  apiCalled : Option (String × String)
  response : PassthroughResponse
deriving DecidableEq, Repr

/-- Embeds the /start-u2f handler (src/routes/account.js:705-717): gated on
`config.u2f.enabled`, then `apiClient['2fa'].startU2f` with data passed
through. -/
def startU2fHandler (u2fEnabled : Bool) (userId ip : String) (api : PassthroughApi) :
    PassthroughOut :=
  if u2fEnabled then
    match api with
    | .err m => ⟨some (userId, ip), .errorJson m⟩
    | .ok p => ⟨some (userId, ip), .dataJson p⟩
  else ⟨none, .errorJson "U2F support is disabled"⟩

/-- Embeds the /setup-u2f handler (src/routes/account.js:794-807): gated on
`config.u2f.enabled`, then `apiClient['2fa'].setupU2f` with data passed
through (the success flash message is presentation and not modelled). -/
def setupU2fHandler (u2fEnabled : Bool) (userId ip : String) (api : PassthroughApi) :
    PassthroughOut :=
  if u2fEnabled then
    match api with
    | .err m => ⟨some (userId, ip), .errorJson m⟩
    | .ok p => ⟨some (userId, ip), .dataJson p⟩
  else ⟨none, .errorJson "U2F support is disabled"⟩

/-! ### POST /enable-u2f (src/routes/account.js:779-792) -/

/-- Response of /enable-u2f: `next(err)` with status 404 when U2F is disabled,
otherwise a page render. This route never calls `apiClient`. -/
inductive EnableU2fResponse where
  | nextError (message : String) (status : Option Nat)
  | render (page : String)
deriving DecidableEq, Repr

/-- Observable effects of /enable-u2f; `apiCalled` is always `none` because
the route body contains no `apiClient` call. -/
structure EnableU2fOut where
  apiCalled : Option Unit
  response : EnableU2fResponse
deriving DecidableEq, Repr

/-- Embeds the /enable-u2f handler (src/routes/account.js:779-792). -/
def enableU2fHandler (u2fEnabled : Bool) : EnableU2fOut :=
  if u2fEnabled then ⟨none, .render "account/enable-u2f"⟩
  else ⟨none, .nextError "U2F support is disabled" (some 404)⟩

/-! ### POST /check-u2f (src/routes/account.js:719-777) -/

/-- Request body of /check-u2f after `delete req.body._csrf`. The six schema
fields are kept as the raw strings the form supplied (`none` = absent);
`hasUnknown` records whether any key outside the schema is present. -/
structure CheckU2fBody where
  keyHandle : Option String
  clientData : Option String
  signatureData : Option String
  errorCode : Option String
  errorMessage : Option String
  remember2fa : Option String
  hasUnknown : Bool
deriving DecidableEq, Repr

/-- Joi `Joi.string()` on an optional field: absent passes, the empty string
is rejected (Joi disallows `''` by default). -/
def validJoiString (v : Option String) : Bool :=
  match v with
  | none => true
  | some s => !(s.data.isEmpty)

/-- Joi `Joi.number()` with `convert:true` on a raw form string: an optional
minus sign followed by digits with at most one decimal point. -/
def validJoiNumber (v : Option String) : Bool :=
  match v with
  | none => true
  | some s =>
    let core := match s.data with
      | '-' :: rest => rest
      | l => l
    !(core.isEmpty) && core.all (fun c => c.isDigit || c = '.') &&
      (core.filter (fun c => c = '.')).length ≤ 1 &&
      core.any Char.isDigit

/-- Joi validation of /check-u2f: all six schema fields must pass and no
unknown key may be present; returns the converted `remember2fa`. -/
def validateCheckU2f (b : CheckU2fBody) : Option Bool :=
  if b.hasUnknown then none
  else if validJoiString b.keyHandle && validJoiString b.clientData &&
      validJoiString b.signatureData && validJoiNumber b.errorCode &&
      validJoiString b.errorMessage then
    parseRemember b.remember2fa
  else none

/-- The request object forwarded to `apiClient['2fa'].checkU2f`
(src/routes/account.js:748-753): the client ip plus, for each of
`signatureData`, `clientData`, `errorCode` present in the validated body, the
raw `req.body` value of that field. `keyHandle`, `errorMessage` and
`remember2fa` are accepted by the schema but never copied in. -/
structure U2fRequestData where
  ip : String
  signatureData : Option String
  clientData : Option String
  errorCode : Option String
deriving DecidableEq, Repr

/-- Builds the /check-u2f provider request from the raw body
(src/routes/account.js:748-753). -/
def buildCheckU2fRequest (ip : String) (b : CheckU2fBody) : U2fRequestData :=
  ⟨ip, b.signatureData, b.clientData, b.errorCode⟩

/-- Outcome of the `apiClient['2fa'].checkU2f` callback `(err, data)`:
an error, a falsy `data`, or data carrying its `success` flag. -/
inductive CheckU2fApi where
  | err (message : String)
  | nodata
  | ok (success : Bool)
deriving DecidableEq, Repr

/-- Response of /check-u2f. -/
inductive CheckU2fResponse where
  | errorJson (message : String)
  | successJson (targetUrl : String) (remember : Option (String × String))
deriving DecidableEq, Repr

/-- Observable effects of /check-u2f. -/
structure CheckU2fOut where
  apiCalled : Option (String × U2fRequestData)
  minted : Option String
  session : Session
  response : CheckU2fResponse
deriving DecidableEq, Repr

/-- Embeds the /check-u2f handler (src/routes/account.js:719-777): gated on
`config.u2f.enabled`, Joi validation, provider call with the filtered request
data, then on verified success an optional remember token and
`req.session.require2fa = false`. -/
def checkU2fHandler (u2fEnabled : Bool) (secret userId ip : String) (sess : Session)
    (b : CheckU2fBody) (api : CheckU2fApi) (now : Nat) (nonce : List Nat) : CheckU2fOut :=
  if u2fEnabled then
    match validateCheckU2f b with
    | none => ⟨none, none, sess, .errorJson joiErrorMessage⟩
    | some remember =>
      match api with
      | .err m => ⟨some (userId, buildCheckU2fRequest ip b), none, sess, .errorJson m⟩
      | .nodata =>
        ⟨some (userId, buildCheckU2fRequest ip b), none, sess, .errorJson "Could not verify key"⟩
      | .ok false =>
        ⟨some (userId, buildCheckU2fRequest ip b), none, sess, .errorJson "Could not verify key"⟩
      | .ok true =>
        let minted := if remember then some (generate2faRemeberToken now nonce secret userId)
          else none
        ⟨some (userId, buildCheckU2fRequest ip b), minted, { sess with require2fa := false },
          .successJson "/account/" (minted.map (fun v => (sess.username, v)))⟩
  else ⟨none, none, sess, .errorJson "U2F support is disabled"⟩

/-! ### POST /enable-u2f/verify (src/routes/account.js:828-847) -/

/-- Request body of /enable-u2f/verify. No Joi validation runs on this route;
only the three filtered fields can reach the provider. -/
structure EnableU2fVerifyBody where
  registrationData : Option String
  clientData : Option String
  errorCode : Option String
deriving DecidableEq, Repr

/-- The request object forwarded to `apiClient['2fa'].enableU2f`
(src/routes/account.js:834-839): ip plus `registrationData`, `clientData`,
`errorCode` from the raw body. -/
structure EnableU2fRequestData where
  ip : String
  registrationData : Option String
  clientData : Option String
  errorCode : Option String
deriving DecidableEq, Repr

/-- Outcome of the `apiClient['2fa'].enableU2f` callback `(err, data)`; the
data's `success` flag is passed through to the response unexamined. -/
inductive EnableU2fApi where
  | err (message : String)
  | ok (success : Bool)
deriving DecidableEq, Repr

/-- Response of /enable-u2f/verify: the api data with `targetUrl` added. -/
inductive EnableU2fVerifyResponse where
  | errorJson (message : String)
  | dataJson (success : Bool) (targetUrl : String)
deriving DecidableEq, Repr

/-- Observable effects of /enable-u2f/verify. -/
structure EnableU2fVerifyOut where
  apiCalled : Option (String × EnableU2fRequestData)
  session : Session
  response : EnableU2fVerifyResponse
deriving DecidableEq, Repr

/-- Embeds the /enable-u2f/verify handler (src/routes/account.js:828-847).
The session is never written by this route: in particular a successful
registration finish does not clear `require2fa`. -/
def enableU2fVerifyHandler (u2fEnabled : Bool) (userId ip : String) (sess : Session)
    (b : EnableU2fVerifyBody) (api : EnableU2fApi) : EnableU2fVerifyOut :=
  if u2fEnabled then
    let reqData : EnableU2fRequestData := ⟨ip, b.registrationData, b.clientData, b.errorCode⟩
    match api with
    | .err m => ⟨some (userId, reqData), sess, .errorJson m⟩
    | .ok s => ⟨some (userId, reqData), sess, .dataJson s "/account/security"⟩
  else ⟨none, sess, .errorJson "U2F support is disabled"⟩

/-! ## Account-level 2FA state for the disable flows

The per-account factor registry lives behind `apiClient` (the external
account-data service). Modelled from the spec: §4.2's `Disable` semantics —
`apiClient['2fa'].disable` removes every factor record of the account and
`apiClient['2fa'].disableU2f` removes the security-key record — combined with
the handlers' session effects taken from the source. -/

/-- The account's active factors together with the current session's
`require2fa` flag. -/
structure Acct2faState where
  totpActive : Bool
  u2fActive : Bool
  require2fa : Bool
deriving DecidableEq, Repr

/-- Effect of a successful /disable-2fa on the account and the session
performing it: the api removes all factors (spec §4.2 `DisableAll`), and the
handler (src/routes/account.js:649) clears the session flag. -/
def disable2faStep (st : Acct2faState) : Acct2faState :=
  { totpActive := false
    u2fActive := false
    require2fa := (disable2faHandler "user" "ip" ⟨st.require2fa, ""⟩ none).session.require2fa }

/-- Effect of a successful /disable-u2f on the account and the session
performing it: the api removes the security-key record (spec §4.2 `Disable`),
and the handler's session effect is exactly what the source does — nothing. -/
def disableU2fStep (st : Acct2faState) : Acct2faState :=
  { totpActive := st.totpActive
    u2fActive := false
    require2fa :=
      (disableU2fHandler true "user" "ip" ⟨st.require2fa, ""⟩ (.ok true)).session.require2fa }

/-- Whether a /check-totp response is a failure (`res.json` with an `error`
field). -/
def checkTotpRespIsError : CheckTotpResponse → Bool
  | .errorJson _ _ => true
  | .successJson _ _ => false

/-- Whether a /check-u2f response is a failure. -/
def checkU2fRespIsError : CheckU2fResponse → Bool
  | .errorJson _ => true
  | .successJson _ _ => false

/-! ## Basic string and list facts used by the theorems -/

theorem string_data_append (s t : String) : (s ++ t).data = s.data ++ t.data := rfl

theorem string_mk_data (s : String) : String.mk s.data = s := rfl

theorem string_ne_empty_of_data (s : String) (h : s.data ≠ []) : s ≠ "" :=
  fun e => h (by rw [e])

theorem splitSeps_cons_of_ne (c : Char) (z : List Char) (hc : c ≠ ':') :
    splitSeps (c :: z) = (c :: (splitSeps z).headI) :: (splitSeps z).tail := by
  cases z with
  | nil => simp [splitSeps]
  | cons c2 rest => simp [splitSeps, hc]

theorem splitSeps_append_sep (l rest : List Char) (h : ':' ∉ l) :
    splitSeps (l ++ ':' :: ':' :: rest) = l :: splitSeps rest := by
  induction l with
  | nil => simp [splitSeps]
  | cons c t ih =>
    have hc : c ≠ ':' := fun e => h (by simp [e])
    have ht : ':' ∉ t := fun hm => h (List.mem_cons_of_mem _ hm)
    rw [List.cons_append, splitSeps_cons_of_ne c _ hc, ih ht]
    simp

theorem splitSeps_no_colon (l : List Char) (h : ':' ∉ l) : splitSeps l = [l] := by
  induction l with
  | nil => rfl
  | cons c t ih =>
    have hc : c ≠ ':' := fun e => h (by simp [e])
    have ht : ':' ∉ t := fun hm => h (List.mem_cons_of_mem _ hm)
    rw [splitSeps_cons_of_ne c _ hc, ih ht]
    simp

/-! ## Hexadecimal output facts -/

theorem hexDigit_isHex (n : Nat) (h : n < 16) : isHexChar (hexDigit n) = true := by
  interval_cases n <;> decide

theorem natToHexAux_isHex (n : Nat) : ∀ c ∈ natToHexAux n, isHexChar c = true := by
  induction n using Nat.strong_induction_on with
  | _ n ih =>
    intro c hc
    rw [natToHexAux] at hc
    by_cases h0 : n = 0
    · simp [h0] at hc
    · simp only [h0, dite_false] at hc
      rcases List.mem_append.mp hc with hm | hm
      · exact ih (n / 16) (Nat.div_lt_self (Nat.pos_of_ne_zero h0) (by decide)) c hm
      · have : c = hexDigit (n % 16) := by simpa using hm
        subst this
        exact hexDigit_isHex _ (Nat.mod_lt _ (by decide))

theorem natToHexAux_ne_nil (n : Nat) (h : n ≠ 0) : natToHexAux n ≠ [] := by
  rw [natToHexAux]
  simp [h]

theorem natToHex_isHex (n : Nat) : ∀ c ∈ (natToHex n).data, isHexChar c = true := by
  intro c hc
  unfold natToHex at hc
  by_cases h0 : n = 0
  · simp [h0] at hc
    subst hc
    decide
  · simp only [h0, if_false] at hc
    exact natToHexAux_isHex n c hc

theorem natToHex_data_ne_nil (n : Nat) : (natToHex n).data ≠ [] := by
  unfold natToHex
  by_cases h0 : n = 0
  · simp [h0]
  · simpa [h0] using natToHexAux_ne_nil n h0

theorem byteHex_isHex (b : Nat) : ∀ c ∈ byteHex b, isHexChar c = true := by
  intro c hc
  rcases (by simpa [byteHex] using hc : c = hexDigit (b / 16 % 16) ∨ c = hexDigit (b % 16)) with
    h | h
  · subst h; exact hexDigit_isHex _ (Nat.mod_lt _ (by decide))
  · subst h; exact hexDigit_isHex _ (Nat.mod_lt _ (by decide))

theorem bytesToHexList_isHex (l : List Nat) : ∀ c ∈ bytesToHexList l, isHexChar c = true := by
  induction l with
  | nil => intro c hc; simp [bytesToHexList] at hc
  | cons b t ih =>
    intro c hc
    rcases List.mem_append.mp (by simpa [bytesToHexList] using hc) with hm | hm
    · exact byteHex_isHex b c hm
    · exact ih c hm

theorem bytesToHexList_length (l : List Nat) : (bytesToHexList l).length = 2 * l.length := by
  induction l with
  | nil => rfl
  | cons b t ih => simp [bytesToHexList, byteHex, ih]; omega

/-- A list of lowercase hex characters contains no colon. -/
theorem no_colon_of_isHex (l : List Char) (h : ∀ c ∈ l, isHexChar c = true) : ':' ∉ l :=
  fun hm => absurd (h _ hm) (by decide)

theorem sha256_length (msg : List Nat) : (sha256 msg).length = 32 := by
  simp [sha256, be32Bytes]

theorem hmacSha256_length (key msg : List Nat) : (hmacSha256 key msg).length = 32 := by
  simp only [hmacSha256]
  exact sha256_length _

/-! ## Facts about the minted token -/

/-- The mint, written out: timestamp hex, `"::"`, nonce hex, `"::"`, and the
keyed hash of the first two parts under `secret ++ ":" ++ user`. -/
theorem generate2faRemeberToken_eq (now : Nat) (nonce : List Nat) (secret user : String) :
    generate2faRemeberToken now nonce secret user =
      natToHex now ++ "::" ++ bytesToHexStr nonce ++ "::" ++
        hmacSha256Hex (secret ++ ":" ++ user) (natToHex now ++ "::" ++ bytesToHexStr nonce) := rfl

theorem hmacSha256Hex_data_isHex (key msg : String) :
    ∀ c ∈ (hmacSha256Hex key msg).data, isHexChar c = true :=
  bytesToHexList_isHex _

theorem hmacSha256Hex_data_ne_nil (key msg : String) : (hmacSha256Hex key msg).data ≠ [] := by
  intro e
  have h1 : (hmacSha256Hex key msg).data.length = 0 := by rw [e]; rfl
  have h2 : (hmacSha256Hex key msg).data.length = 64 := by
    show (bytesToHexList (hmacSha256 (strBytes key) (strBytes msg))).length = 64
    rw [bytesToHexList_length, hmacSha256_length]
  omega

theorem bytesToHexStr_data_ne_nil (l : List Nat) (h : l ≠ []) : (bytesToHexStr l).data ≠ [] := by
  intro e
  have h1 : (bytesToHexList l).length = 0 := by
    have : (bytesToHexStr l).data = bytesToHexList l := rfl
    rw [this] at e
    rw [e]; rfl
  rw [bytesToHexList_length] at h1
  exact h (List.eq_nil_of_length_eq_zero (by omega))

/-- Splitting a minted token on `"::"` recovers exactly the three parts. -/
theorem tokenSplit_mint (now : Nat) (nonce : List Nat) (secret user : String) :
    tokenSplit (generate2faRemeberToken now nonce secret user) =
      [natToHex now, bytesToHexStr nonce,
       hmacSha256Hex (secret ++ ":" ++ user) (natToHex now ++ "::" ++ bytesToHexStr nonce)] := by
  have hA : ':' ∉ (natToHex now).data := no_colon_of_isHex _ (natToHex_isHex now)
  have hB : ':' ∉ (bytesToHexStr nonce).data :=
    no_colon_of_isHex _ (bytesToHexList_isHex nonce)
  have hH : ':' ∉ (hmacSha256Hex (secret ++ ":" ++ user)
      (natToHex now ++ "::" ++ bytesToHexStr nonce)).data :=
    no_colon_of_isHex _ (hmacSha256Hex_data_isHex _ _)
  have hd : (generate2faRemeberToken now nonce secret user).data =
      (natToHex now).data ++ ':' :: ':' :: ((bytesToHexStr nonce).data ++ ':' :: ':' ::
        (hmacSha256Hex (secret ++ ":" ++ user)
          (natToHex now ++ "::" ++ bytesToHexStr nonce)).data) := by
    rw [generate2faRemeberToken_eq]
    simp [string_data_append]
  unfold tokenSplit
  rw [hd, splitSeps_append_sep _ _ hA, splitSeps_append_sep _ _ hB, splitSeps_no_colon _ hH]
  simp [string_mk_data]

/-! ## Validation facts -/

theorem validTotpCode_spec (t : String) (h : validTotpCode t = true) :
    t.length = 6 ∧ t.data.all Char.isDigit = true := by
  unfold validTotpCode at h
  rw [Bool.and_eq_true] at h
  exact ⟨by simpa using h.1, h.2⟩

theorem validateCheckTotp_valid (b : CheckTotpBody) (t : String) (r : Bool)
    (h : validateCheckTotp b = some (t, r)) : validTotpCode t = true := by
  unfold validateCheckTotp at h
  split at h
  · exact absurd h (by simp)
  · split at h
    · split at h
      · rename_i hcond
        obtain ⟨rfl, rfl⟩ : _ ∧ _ := by simpa using h
        exact hcond
      · exact absurd h (by simp)
    · exact absurd h (by simp)

theorem validateVerifyTotp_valid (b : VerifyTotpBody) (t : String)
    (h : validateVerifyTotp b = some t) : validTotpCode t = true := by
  unfold validateVerifyTotp at h
  split at h
  · exact absurd h (by simp)
  · split at h
    · split at h
      · rename_i hcond
        obtain rfl : _ = t := by simpa using h
        exact hcond
      · exact absurd h (by simp)
    · exact absurd h (by simp)

/-! ## The claims -/

/-- C2: the mint operation returns the string `timestampHex::nonceHex::signature`,
where `timestampHex` encodes the mint time in milliseconds, `nonceHex` encodes the
6-byte nonce (12 hex characters), and `signature` is HMAC-SHA256 keyed by
`secretKey ++ ":" ++ accountId` over the message `timestampHex ++ "::" ++ nonceHex`. -/
theorem c2_mint_token_format (now : Nat) (nonce : List Nat) (secret user : String)
    (h : nonce.length = 6) :
    generate2faRemeberToken now nonce secret user =
      natToHex now ++ "::" ++ bytesToHexStr nonce ++ "::" ++
        hmacSha256Hex (secret ++ ":" ++ user) (natToHex now ++ "::" ++ bytesToHexStr nonce) ∧
    (bytesToHexStr nonce).length = 12 := by
  refine ⟨generate2faRemeberToken_eq now nonce secret user, ?_⟩
  show (bytesToHexList nonce).length = 12
  rw [bytesToHexList_length, h]

/-- Witness for C2 at a concrete mint time, nonce, secret and account id. -/
theorem c2_mint_token_format_witness :
    ([190, 2, 254, 86, 7, 255] : List Nat).length = 6 ∧
    (generate2faRemeberToken 1500000000000 [190, 2, 254, 86, 7, 255] "sekrit" "user1" =
      natToHex 1500000000000 ++ "::" ++ bytesToHexStr [190, 2, 254, 86, 7, 255] ++ "::" ++
        hmacSha256Hex ("sekrit" ++ ":" ++ "user1")
          (natToHex 1500000000000 ++ "::" ++ bytesToHexStr [190, 2, 254, 86, 7, 255]) ∧
      (bytesToHexStr [190, 2, 254, 86, 7, 255]).length = 12) :=
  ⟨by decide, c2_mint_token_format 1500000000000 [190, 2, 254, 86, 7, 255] "sekrit" "user1"
    (by decide)⟩

/-- C10: a minted token splits on `"::"` into exactly three non-empty parts,
each consisting only of lowercase hexadecimal characters, and the third part is
the HMAC-SHA256, keyed by `secret ++ ":" ++ accountId`, of the first two parts
rejoined with `"::"`. -/
theorem c10_token_split_structure (now : Nat) (nonce : List Nat) (secret user : String)
    (h : nonce.length = 6) :
    tokenSplit (generate2faRemeberToken now nonce secret user) =
      [natToHex now, bytesToHexStr nonce,
       hmacSha256Hex (secret ++ ":" ++ user) (natToHex now ++ "::" ++ bytesToHexStr nonce)] ∧
    (∀ p ∈ tokenSplit (generate2faRemeberToken now nonce secret user),
      p ≠ "" ∧ p.data.all isHexChar = true) ∧
    (tokenSplit (generate2faRemeberToken now nonce secret user)).getD 2 "" =
      hmacSha256Hex (secret ++ ":" ++ user)
        ((tokenSplit (generate2faRemeberToken now nonce secret user)).getD 0 "" ++ "::" ++
          (tokenSplit (generate2faRemeberToken now nonce secret user)).getD 1 "") := by
  have hs := tokenSplit_mint now nonce secret user
  refine ⟨hs, ?_, ?_⟩
  · intro p hp
    rw [hs] at hp
    have hne : nonce ≠ [] := by
      intro e
      rw [e] at h
      simp at h
    rcases (by simpa using hp : p = _ ∨ p = _ ∨ p = _) with h1 | h1 | h1 <;> subst h1
    · exact ⟨string_ne_empty_of_data _ (natToHex_data_ne_nil now),
        List.all_eq_true.mpr (natToHex_isHex now)⟩
    · exact ⟨string_ne_empty_of_data _ (bytesToHexStr_data_ne_nil _ hne),
        List.all_eq_true.mpr (bytesToHexList_isHex nonce)⟩
    · exact ⟨string_ne_empty_of_data _ (hmacSha256Hex_data_ne_nil _ _),
        List.all_eq_true.mpr (hmacSha256Hex_data_isHex _ _)⟩
  · rw [hs]
    rfl

/-- Witness for C10 at a concrete mint time, nonce, secret and account id. -/
theorem c10_token_split_structure_witness :
    ([1, 2, 3, 4, 5, 6] : List Nat).length = 6 ∧
    (tokenSplit (generate2faRemeberToken 7 [1, 2, 3, 4, 5, 6] "k" "u") =
      [natToHex 7, bytesToHexStr [1, 2, 3, 4, 5, 6],
       hmacSha256Hex ("k" ++ ":" ++ "u") (natToHex 7 ++ "::" ++ bytesToHexStr [1, 2, 3, 4, 5, 6])] ∧
     (∀ p ∈ tokenSplit (generate2faRemeberToken 7 [1, 2, 3, 4, 5, 6] "k" "u"),
       p ≠ "" ∧ p.data.all isHexChar = true) ∧
     (tokenSplit (generate2faRemeberToken 7 [1, 2, 3, 4, 5, 6] "k" "u")).getD 2 "" =
       hmacSha256Hex ("k" ++ ":" ++ "u")
         ((tokenSplit (generate2faRemeberToken 7 [1, 2, 3, 4, 5, 6] "k" "u")).getD 0 "" ++ "::" ++
           (tokenSplit (generate2faRemeberToken 7 [1, 2, 3, 4, 5, 6] "k" "u")).getD 1 "")) :=
  ⟨by decide, c10_token_split_structure 7 [1, 2, 3, 4, 5, 6] "k" "u" (by decide)⟩

/-- C3 fails on the code: starting from an account whose only active factor is
the security key and a session with `require2fa = true`, a successful
/disable-u2f removes the last active factor yet leaves `require2fa = true`
(the handler, src/routes/account.js:809-826, never writes the session). -/
theorem c3_counterexample :
    (disableU2fStep ⟨false, true, true⟩).totpActive = false ∧
    (disableU2fStep ⟨false, true, true⟩).u2fActive = false ∧
    (disableU2fStep ⟨false, true, true⟩).require2fa = true :=
  ⟨rfl, rfl, rfl⟩

/-- C3 amended: a successful /disable-2fa removes all factors and forces the
performing session's `require2fa` to false; a successful /disable-u2f removes
the security-key factor but leaves the session's `require2fa` unchanged, even
when that was the account's last active factor. -/
theorem c3_amended_disable_session_effects (st : Acct2faState) :
    (disable2faStep st).totpActive = false ∧
    (disable2faStep st).u2fActive = false ∧
    (disable2faStep st).require2fa = false ∧
    (disableU2fStep st).u2fActive = false ∧
    (disableU2fStep st).totpActive = st.totpActive ∧
    (disableU2fStep st).require2fa = st.require2fa :=
  ⟨rfl, rfl, rfl, rfl, rfl, rfl⟩

/-- C4: on /check-totp, a provider error or a non-success provider result
yields a failure response and leaves the session's `require2fa` unchanged;
`require2fa` is cleared to false exactly on provider success (with a body that
passed validation), and a validation failure also leaves the session
unchanged. -/
theorem c4_check_totp_session_on_failure (secret userId ip : String) (sess : Session)
    (b : CheckTotpBody) (now : Nat) (nonce : List Nat) :
    (∀ m c, (checkTotpHandler secret userId ip sess b (.err m c) now nonce).session = sess ∧
      checkTotpRespIsError
        ((checkTotpHandler secret userId ip sess b (.err m c) now nonce).response) = true) ∧
    ((checkTotpHandler secret userId ip sess b (.ok false) now nonce).session = sess ∧
      checkTotpRespIsError
        ((checkTotpHandler secret userId ip sess b (.ok false) now nonce).response) = true) ∧
    (validateCheckTotp b ≠ none →
      (checkTotpHandler secret userId ip sess b (.ok true) now nonce).session =
        { sess with require2fa := false }) ∧
    (validateCheckTotp b = none →
      ∀ api, (checkTotpHandler secret userId ip sess b api now nonce).session = sess) := by
  cases hv : validateCheckTotp b with
  | none =>
    refine ⟨?_, ?_, ?_, ?_⟩ <;> simp [checkTotpHandler, hv, checkTotpRespIsError]
  | some tr =>
    obtain ⟨t, r⟩ := tr
    refine ⟨?_, ?_, ?_, ?_⟩ <;> simp [checkTotpHandler, hv, checkTotpRespIsError]

/-- Witness for C4: a valid code with provider success clears `require2fa`;
the same body with a provider error leaves the session untouched. -/
theorem c4_check_totp_session_on_failure_witness :
    validateCheckTotp ⟨some "123456", none, false⟩ ≠ none ∧
    (checkTotpHandler "k" "u" "1.2.3.4" ⟨true, "alice"⟩ ⟨some "123456", none, false⟩
        (.ok true) 1 [1, 2, 3, 4, 5, 6]).session = ⟨false, "alice"⟩ ∧
    (checkTotpHandler "k" "u" "1.2.3.4" ⟨true, "alice"⟩ ⟨some "123456", none, false⟩
        (.err "provider down" none) 1 [1, 2, 3, 4, 5, 6]).session = ⟨true, "alice"⟩ := by
  have h := c4_check_totp_session_on_failure "k" "u" "1.2.3.4" ⟨true, "alice"⟩
    ⟨some "123456", none, false⟩ 1 [1, 2, 3, 4, 5, 6]
  exact ⟨by decide, h.2.2.1 (by decide), (h.1 "provider down" none).1⟩

/-- C5: /check-totp and /check-u2f mint a remember token only when the
provider reported success and the caller opted in with `remember2fa`; every
execution path ending in a failure response mints nothing. -/
theorem c5_mint_only_after_success (en : Bool) (secret userId ip : String) (sess : Session)
    (bt : CheckTotpBody) (bu : CheckU2fBody) (apiT : CheckTotpApi) (apiU : CheckU2fApi)
    (now : Nat) (nonce : List Nat) :
    ((checkTotpHandler secret userId ip sess bt apiT now nonce).minted ≠ none →
      apiT = CheckTotpApi.ok true ∧ ∃ t, validateCheckTotp bt = some (t, true)) ∧
    (checkTotpRespIsError ((checkTotpHandler secret userId ip sess bt apiT now nonce).response)
        = true →
      (checkTotpHandler secret userId ip sess bt apiT now nonce).minted = none) ∧
    ((checkU2fHandler en secret userId ip sess bu apiU now nonce).minted ≠ none →
      apiU = CheckU2fApi.ok true ∧ validateCheckU2f bu = some true) ∧
    (checkU2fRespIsError ((checkU2fHandler en secret userId ip sess bu apiU now nonce).response)
        = true →
      (checkU2fHandler en secret userId ip sess bu apiU now nonce).minted = none) := by
  refine ⟨?_, ?_, ?_, ?_⟩
  · cases hv : validateCheckTotp bt with
    | none => cases apiT <;> simp [checkTotpHandler, hv]
    | some tr =>
      obtain ⟨t, r⟩ := tr
      cases apiT with
      | err m c => simp [checkTotpHandler, hv]
      | ok res =>
        cases res <;> cases r <;> simp [checkTotpHandler, hv]
  · cases hv : validateCheckTotp bt with
    | none => cases apiT <;> simp [checkTotpHandler, hv, checkTotpRespIsError]
    | some tr =>
      obtain ⟨t, r⟩ := tr
      cases apiT with
      | err m c => simp [checkTotpHandler, hv]
      | ok res => cases res <;> cases r <;> simp [checkTotpHandler, hv, checkTotpRespIsError]
  · cases en with
    | false => simp [checkU2fHandler]
    | true =>
      cases hv : validateCheckU2f bu with
      | none => cases apiU <;> simp [checkU2fHandler, hv]
      | some r =>
        cases apiU with
        | err m => simp [checkU2fHandler, hv]
        | nodata => simp [checkU2fHandler, hv]
        | ok s =>
          cases s <;> cases r <;> simp [checkU2fHandler, hv]
  · cases en with
    | false => simp [checkU2fHandler, checkU2fRespIsError]
    | true =>
      cases hv : validateCheckU2f bu with
      | none => cases apiU <;> simp [checkU2fHandler, hv, checkU2fRespIsError]
      | some r =>
        cases apiU with
        | err m => simp [checkU2fHandler, hv]
        | nodata => simp [checkU2fHandler, hv]
        | ok s => cases s <;> cases r <;> simp [checkU2fHandler, hv, checkU2fRespIsError]

/-- Witness for C5: a provider error on /check-totp produces a failure
response and no minted token. -/
theorem c5_mint_only_after_success_witness :
    checkTotpRespIsError ((checkTotpHandler "k" "u" "i" ⟨true, "al"⟩
        ⟨some "123456", none, false⟩ (.err "x" none) 1 [1, 2, 3, 4, 5, 6]).response) = true ∧
    (checkTotpHandler "k" "u" "i" ⟨true, "al"⟩ ⟨some "123456", none, false⟩
        (.err "x" none) 1 [1, 2, 3, 4, 5, 6]).minted = none := by
  have h := c5_mint_only_after_success true "k" "u" "i" ⟨true, "al"⟩
    ⟨some "123456", none, false⟩ ⟨none, none, none, none, none, none, false⟩
    (.err "x" none) (.err "y") 1 [1, 2, 3, 4, 5, 6]
  exact ⟨by decide, h.2.1 (by decide)⟩

/-- C6: with `config.u2f.enabled` false, every security-key route fails
immediately with the `U2F support is disabled` error, issues no `apiClient`
request, and leaves the session untouched. -/
theorem c6_u2f_routes_gated_when_disabled (secret userId ip : String) (sess : Session)
    (bu : CheckU2fBody) (be : EnableU2fVerifyBody) (apiS apiP : PassthroughApi)
    (apiU : CheckU2fApi) (apiD : DisableU2fApi) (apiE : EnableU2fApi)
    (now : Nat) (nonce : List Nat) :
    (startU2fHandler false userId ip apiS).apiCalled = none ∧
    (startU2fHandler false userId ip apiS).response = .errorJson "U2F support is disabled" ∧
    (checkU2fHandler false secret userId ip sess bu apiU now nonce).apiCalled = none ∧
    (checkU2fHandler false secret userId ip sess bu apiU now nonce).response =
      .errorJson "U2F support is disabled" ∧
    (checkU2fHandler false secret userId ip sess bu apiU now nonce).session = sess ∧
    (setupU2fHandler false userId ip apiP).apiCalled = none ∧
    (setupU2fHandler false userId ip apiP).response = .errorJson "U2F support is disabled" ∧
    (enableU2fHandler false).apiCalled = none ∧
    (enableU2fHandler false).response = .nextError "U2F support is disabled" (some 404) ∧
    (disableU2fHandler false userId ip sess apiD).apiCalled = none ∧
    (disableU2fHandler false userId ip sess apiD).response =
      .nextError "U2F support is disabled" (some 404) ∧
    (disableU2fHandler false userId ip sess apiD).session = sess ∧
    (enableU2fVerifyHandler false userId ip sess be apiE).apiCalled = none ∧
    (enableU2fVerifyHandler false userId ip sess be apiE).response =
      .errorJson "U2F support is disabled" ∧
    (enableU2fVerifyHandler false userId ip sess be apiE).session = sess :=
  ⟨rfl, rfl, rfl, rfl, rfl, rfl, rfl, rfl, rfl, rfl, rfl, rfl, rfl, rfl, rfl⟩

/-- C7 fails on the code: a successful finish of security-key registration on
/enable-u2f/verify returns success but leaves the session's `require2fa` at
`true` — the handler (src/routes/account.js:828-847) never writes the
session. -/
theorem c7_counterexample :
    (enableU2fVerifyHandler true "user" "ip" ⟨true, "alice"⟩ ⟨none, none, none⟩
        (.ok true)).response = .dataJson true "/account/security" ∧
    (enableU2fVerifyHandler true "user" "ip" ⟨true, "alice"⟩ ⟨none, none, none⟩
        (.ok true)).session.require2fa = true :=
  ⟨rfl, rfl⟩

/-- C7 amended: a successful finish of security-key registration returns the
provider's success result with target `/account/security` (activation itself is
delegated to the provider), but the current session is left entirely
unchanged — `secondFactorRequired` is not cleared. -/
theorem c7_amended_enable_u2f_verify (en : Bool) (userId ip : String) (sess : Session)
    (b : EnableU2fVerifyBody) (api : EnableU2fApi) (s : Bool) :
    (enableU2fVerifyHandler en userId ip sess b api).session = sess ∧
    (enableU2fVerifyHandler true userId ip sess b (.ok s)).response =
      .dataJson s "/account/security" := by
  constructor
  · cases en <;> cases api <;> rfl
  · rfl

/-- C8: /check-totp and /verify-totp forward a code to the provider only after
it passed validation as exactly six ASCII digits; any other body shape draws a
validation-error response and the provider is never invoked. -/
theorem c8_totp_code_shape_enforced (secret userId ip : String) (sess : Session)
    (bc : CheckTotpBody) (bv : VerifyTotpBody) (apiC : CheckTotpApi) (apiV : VerifyTotpApi)
    (now : Nat) (nonce : List Nat) :
    (∀ u t i2, (checkTotpHandler secret userId ip sess bc apiC now nonce).apiCalled =
      some (u, t, i2) → t.length = 6 ∧ t.data.all Char.isDigit = true) ∧
    (validateCheckTotp bc = none →
      (checkTotpHandler secret userId ip sess bc apiC now nonce).apiCalled = none ∧
      (checkTotpHandler secret userId ip sess bc apiC now nonce).response =
        .errorJson joiErrorMessage none) ∧
    (∀ u t i2, (verifyTotpHandler userId ip sess bv apiV).apiCalled = some (u, t, i2) →
      t.length = 6 ∧ t.data.all Char.isDigit = true) ∧
    (validateVerifyTotp bv = none →
      (verifyTotpHandler userId ip sess bv apiV).apiCalled = none ∧
      (verifyTotpHandler userId ip sess bv apiV).response =
        .errorJson joiErrorMessage none) := by
  refine ⟨?_, ?_, ?_, ?_⟩
  · intro u t i2 hc
    cases hv : validateCheckTotp bc with
    | none => simp [checkTotpHandler, hv] at hc
    | some tr =>
      obtain ⟨t0, r0⟩ := tr
      have hvt := validateCheckTotp_valid bc t0 r0 hv
      have hcall : (checkTotpHandler secret userId ip sess bc apiC now nonce).apiCalled =
          some (userId, t0, ip) := by
        cases apiC with
        | err m c => simp [checkTotpHandler, hv]
        | ok res => cases res <;> simp [checkTotpHandler, hv]
      have heq : (userId, t0, ip) = (u, t, i2) := by
        have := hcall.symm.trans hc
        simpa using this
      obtain ⟨-, h2, -⟩ : userId = u ∧ t0 = t ∧ ip = i2 := by simpa using heq
      subst h2
      exact validTotpCode_spec t0 hvt
  · intro hv
    simp [checkTotpHandler, hv]
  · intro u t i2 hc
    cases hv : validateVerifyTotp bv with
    | none => simp [verifyTotpHandler, hv] at hc
    | some t0 =>
      have hvt := validateVerifyTotp_valid bv t0 hv
      have hcall : (verifyTotpHandler userId ip sess bv apiV).apiCalled =
          some (userId, t0, ip) := by
        cases apiV <;> simp [verifyTotpHandler, hv]
      have heq : (userId, t0, ip) = (u, t, i2) := by
        have := hcall.symm.trans hc
        simpa using this
      obtain ⟨-, h2, -⟩ : userId = u ∧ t0 = t ∧ ip = i2 := by simpa using heq
      subst h2
      exact validTotpCode_spec t0 hvt
  · intro hv
    simp [verifyTotpHandler, hv]

/-- Witness for C8: a malformed code (`12ab56`) fails validation and the
provider is never invoked. -/
theorem c8_totp_code_shape_enforced_witness :
    validateCheckTotp ⟨some "12ab56", none, false⟩ = none ∧
    (checkTotpHandler "k" "u" "i" ⟨true, "al"⟩ ⟨some "12ab56", none, false⟩
        (.ok true) 1 [1, 2, 3, 4, 5, 6]).apiCalled = none := by
  have h := c8_totp_code_shape_enforced "k" "u" "i" ⟨true, "al"⟩
    ⟨some "12ab56", none, false⟩ ⟨some "12ab56", false⟩ (.ok true) .ok 1 [1, 2, 3, 4, 5, 6]
  exact ⟨by decide, (h.2.1 (by decide)).1⟩

/-- C9: the /check-u2f request forwarded to the provider is exactly the client
ip plus the raw body fields `signatureData`, `clientData` and `errorCode`; two
accepted bodies that agree on those three fields — however they differ on
`keyHandle`, `errorMessage` or `remember2fa` — produce the identical provider
request. -/
theorem c9_check_u2f_forwards_only_filtered (secret userId ip : String)
    (sess1 sess2 : Session) (b1 b2 : CheckU2fBody) (api1 api2 : CheckU2fApi)
    (now : Nat) (nonce : List Nat)
    (h1 : validateCheckU2f b1 ≠ none) (h2 : validateCheckU2f b2 ≠ none)
    (hs : b1.signatureData = b2.signatureData) (hc : b1.clientData = b2.clientData)
    (he : b1.errorCode = b2.errorCode) :
    (checkU2fHandler true secret userId ip sess1 b1 api1 now nonce).apiCalled =
      some (userId, ⟨ip, b1.signatureData, b1.clientData, b1.errorCode⟩) ∧
    (checkU2fHandler true secret userId ip sess2 b2 api2 now nonce).apiCalled =
      some (userId, ⟨ip, b1.signatureData, b1.clientData, b1.errorCode⟩) := by
  constructor
  · cases hv : validateCheckU2f b1 with
    | none => exact absurd hv h1
    | some r =>
      cases api1 with
      | err m => simp [checkU2fHandler, hv, buildCheckU2fRequest]
      | nodata => simp [checkU2fHandler, hv, buildCheckU2fRequest]
      | ok s => cases s <;> simp [checkU2fHandler, hv, buildCheckU2fRequest]
  · cases hv : validateCheckU2f b2 with
    | none => exact absurd hv h2
    | some r =>
      cases api2 with
      | err m => simp [checkU2fHandler, hv, buildCheckU2fRequest, hs, hc, he]
      | nodata => simp [checkU2fHandler, hv, buildCheckU2fRequest, hs, hc, he]
      | ok s => cases s <;> simp [checkU2fHandler, hv, buildCheckU2fRequest, hs, hc, he]

/-- Witness for C9: two accepted bodies differing exactly in `keyHandle`,
`errorMessage` and `remember2fa` are forwarded as the same provider request. -/
theorem c9_check_u2f_forwards_only_filtered_witness :
    validateCheckU2f ⟨some "kh", some "cd", some "sd", some "7", some "boom", some "yes",
      false⟩ ≠ none ∧
    validateCheckU2f ⟨none, some "cd", some "sd", some "7", none, none, false⟩ ≠ none ∧
    (checkU2fHandler true "k" "u" "i" ⟨true, "a"⟩
        ⟨some "kh", some "cd", some "sd", some "7", some "boom", some "yes", false⟩
        (.ok true) 1 [1, 2, 3, 4, 5, 6]).apiCalled =
      some ("u", ⟨"i", some "sd", some "cd", some "7"⟩) ∧
    (checkU2fHandler true "k" "u" "i" ⟨false, "b"⟩
        ⟨none, some "cd", some "sd", some "7", none, none, false⟩
        (.err "e") 1 [1, 2, 3, 4, 5, 6]).apiCalled =
      some ("u", ⟨"i", some "sd", some "cd", some "7"⟩) := by
  have h := c9_check_u2f_forwards_only_filtered "k" "u" "i" ⟨true, "a"⟩ ⟨false, "b"⟩
    ⟨some "kh", some "cd", some "sd", some "7", some "boom", some "yes", false⟩
    ⟨none, some "cd", some "sd", some "7", none, none, false⟩
    (.ok true) (.err "e") 1 [1, 2, 3, 4, 5, 6]
    (by decide) (by decide) rfl rfl rfl
  exact ⟨by decide, by decide, h.1, h.2⟩

end WildduckWebmail
